import Mathlib

/-!
Shallow embedding of the djsframe command framework (registry, command
descriptor, dispatcher, SQLite settings provider) and proofs about it.

Sources embedded:
  src/unnamed/part_000        FrameRegistry (registerGroup, registerCommand, ...)
  src/src/commands/command.js FrameCommand (hasPermission, throttle,
                              setEnabledIn, isEnabledIn, isUsable) and FrameGroup
  src/src/dispatcher.js       FrameDispatcher (handleMessage, handleCommand)
  src/src/providers/sqlite.js SQLiteProvider (get, set, remove, getGuildID)
  src/src/client.js           FrameClient (isOwner, options)

JavaScript runtime behaviour is modelled explicitly: a thrown exception is an
Except error or an Option JSError paired with the (unchanged or partially
changed) state; property lookups that the source performs on objects lacking
the property are modelled by dispatching on the property name string taken
verbatim from the source, so that a misspelt or missing member yields the
TypeError the JavaScript engine would raise.
-/

namespace Djsframe

/-- Kinds of JavaScript exceptions thrown by the embedded code. -/
inductive JSError where
  | typeError (msg : String)
  | rangeError (msg : String)
  | referenceError (msg : String)
  | error (msg : String)
deriving DecidableEq, Repr

/-- JavaScript values that flow through the embedded code: undefined, a
boolean, a string, or an array of strings. -/
inductive JSVal where
  | undefined
  | bool (b : Bool)
  | str (s : String)
  | list (l : List String)
deriving DecidableEq, Repr

/-- JavaScript truthiness for the values of JSVal: undefined is falsy, a
boolean is itself, a string is truthy when nonempty, an array is always
truthy. -/
def jsTruthy : JSVal → Bool
  | .undefined => false
  | .bool b => b
  | .str s => !s.isEmpty
  | .list _ => true

/-- JavaScript a && b keeps the left value when it is falsy. -/
def jsAnd (a b : JSVal) : JSVal := if jsTruthy a then b else a

/-- JavaScript a || b keeps the left value when it is truthy. -/
def jsOr (a b : JSVal) : JSVal := if jsTruthy a then a else b

/-- Helper for jsSplit: accumulates the current token (reversed). -/
def jsSplitAux (sep : Char) : List Char → List Char → List String
  | [], acc => [String.mk acc.reverse]
  | c :: cs, acc =>
    if c = sep then String.mk acc.reverse :: jsSplitAux sep cs []
    else jsSplitAux sep cs (c :: acc)

/-- JavaScript String.prototype.split with a one-character separator: the
empty string yields a single empty token, and adjacent separators yield empty
tokens, exactly as content.split applied to a space does. -/
def jsSplit (s : String) (sep : Char) : List String := jsSplitAux sep s.data []

/-- JavaScript String.prototype.slice(n) for a nonnegative n: drop the first
n characters. -/
def jsSliceFrom (s : String) (n : Nat) : String := String.mk (s.data.drop n)

/-- JavaScript String.prototype.toLowerCase over the characters. -/
def jsToLower (s : String) : String := String.mk (s.data.map Char.toLower)

/-- discord.js Collection.set on an insertion-ordered association list:
replace in place when the key exists, append otherwise. -/
def collSet {α : Type} (l : List (String × α)) (k : String) (v : α) :
    List (String × α) :=
  if l.any (fun p => p.1 == k) then
    l.map (fun p => if p.1 == k then (k, v) else p)
  else l ++ [(k, v)]

/-- discord.js Collection.get on an association list. -/
def collGet {α : Type} (l : List (String × α)) (k : String) : Option α :=
  (l.find? (fun p => p.1 == k)).map Prod.snd

/-- ThrottlingOptions from CommandInfo: usages and duration (seconds). -/
structure ThrottlingOptions where
  usages : Nat
  duration : Nat
deriving DecidableEq, Repr

/-- FrameCommand state after construction (src/src/commands/command.js
constructor). groupId holds info.group, the owning group id string.
userPermissions is none when info.userPermissions was absent (the constructor
stores null); some l models a stored array, which is truthy even when empty.
globalEnabled is the private _globalEnabled field, initialised to true. -/
structure FrameCommand where
  name : String
  aliases : List String := []
  groupId : String
  memberName : String
  guildOnly : Bool := false
  ownerOnly : Bool := false
  userPermissions : Option (List String) := none
  nsfw : Bool := false
  throttling : Option ThrottlingOptions := none
  guarded : Bool := false
  hidden : Bool := false
  unknown : Bool := false
  globalEnabled : Bool := true
deriving DecidableEq, Repr

/-- FrameGroup from src/src/commands/group.js. Its constructor sets only the
client, id and name; it never initialises a commands collection (and no other
code in the repository adds one to the class), so the commands property of a
freshly constructed group is undefined, modelled here as none. -/
structure FrameGroup where
  id : String
  name : String
  commands : Option (List (String × FrameCommand)) := none
deriving DecidableEq, Repr

/-- The FrameGroup constructor: throws when the id is not lowercase; the
display name defaults to the id when the given name is falsy (name || id). -/
def FrameGroup.create (id name : String) : Except JSError FrameGroup :=
  if id ≠ jsToLower id then .error (.error "Group ID must be lowercase.")
  else .ok { id := id, name := if name.isEmpty then id else name, commands := none }

/-- FrameRegistry state (src/unnamed/part_000 constructor): the flat commands
map, the groups map, and the single unknown-flagged fallback command. -/
structure FrameRegistry where
  commands : List (String × FrameCommand) := []
  groups : List (String × FrameGroup) := []
  unknownCommand : Option FrameCommand := none
deriving DecidableEq, Repr

/-- FrameRegistry.registerGroup (src/unnamed/part_000 lines 64-80): constructs
the group, then warns and skips when the id is already present, otherwise
inserts it. The emitted events carry no state and are not modelled. -/
def registerGroup (r : FrameRegistry) (id name : String) :
    FrameRegistry × Option JSError :=
  match FrameGroup.create id name with
  | .error e => (r, some e)
  | .ok group =>
    if (collGet r.groups id).isSome then (r, none)
    else ({ r with groups := collSet r.groups id group }, none)

/-- FrameRegistry.registerCommand (src/unnamed/part_000 lines 101-140), taking
an already-constructed command instance (the isConstructor normalisation at
lines 103-105 is identity on instances). The checks run in source order:
name conflict, alias conflicts, group existence, memberName uniqueness inside
the group (which reads group.commands, undefined on every group built by the
FrameGroup constructor, so that access throws a TypeError), and the
unknown-singleton check; all mutations follow every check. The result pairs
the registry state after the call with the thrown error, if any. -/
def registerCommand (r : FrameRegistry) (command : FrameCommand) :
    FrameRegistry × Option JSError :=
  if r.commands.any (fun p => p.2.name == command.name || p.2.aliases.contains command.name) then
    (r, some (.error ("A command with the name/alias " ++ command.name ++ " is already registered.")))
  else
    match command.aliases.find? (fun ali => r.commands.any (fun p => p.2.name == ali || p.2.aliases.contains ali)) with
    | some ali =>
      (r, some (.error ("A command with the name/alias " ++ ali ++ " is already registered.")))
    | none =>
      match r.groups.find? (fun p => p.2.id == command.groupId) with
      | none => (r, some (.error ("Group " ++ command.groupId ++ " is not registered.")))
      | some (gkey, group) =>
        match group.commands with
        | none => (r, some (.typeError "Cannot read properties of undefined (reading some)"))
        | some gcmds =>
          if gcmds.any (fun p => p.2.memberName == command.memberName) then
            (r, some (.error ("A command with the member name " ++ command.memberName ++ " is already registered in " ++ group.id)))
          else if command.unknown && r.unknownCommand.isSome then
            (r, some (.error "An unknown command is already registered."))
          else
            ({ commands := collSet r.commands command.name command,
               groups := collSet r.groups gkey { group with commands := some (collSet gcmds command.name command) },
               unknownCommand := if command.unknown then some command else r.unknownCommand },
             none)

/-- SQLiteProvider in-memory state: the settings cache (scope id to settings
object, a key-to-value map in which a value may be the explicit undefined
written by remove) and the persisted rows (one per scope key, holding the
JSON-serialised settings object; scope global is stored under row key 0). -/
structure SQLiteProviderSt where
  settings : List (String × List (String × JSVal)) := []
  rows : List (String × String) := []
deriving DecidableEq, Repr

/-- JSON.stringify of one JSVal (only shapes the embedded code stores). -/
def jsonValStr : JSVal → String
  | .undefined => "null"
  | .bool b => if b then "true" else "false"
  | .str s => "\"" ++ s ++ "\""
  | .list l => "[" ++ String.intercalate "," (l.map (fun s => "\"" ++ s ++ "\"")) ++ "]"

/-- JSON.stringify of a settings object; keys holding undefined are omitted,
as JSON.stringify does. -/
def jsonStringify (obj : List (String × JSVal)) : String :=
  "\x7b" ++
    String.intercalate ","
      ((obj.filter (fun p => p.2 ≠ .undefined)).map
        (fun p => "\"" ++ p.1 ++ "\":" ++ jsonValStr p.2)) ++
  "\x7d"

/-- In src/src/providers/sqlite.js getGuildID is declared static, so it is a
property of the SQLiteProvider class and not of its instances, yet get, set,
remove and clear all call this.getGuildID. The instance-property lookup
yields undefined and calling it throws a TypeError before any cache or
database work happens. -/
def thisGetGuildID (_guild : String) : Except JSError String :=
  .error (.typeError "this.getGuildID is not a function")

/-- The static getGuildID body itself: its first statement evaluates the bare
identifier Guild, which sqlite.js never imports or defines, so even a direct
SQLiteProvider.getGuildID call throws a ReferenceError before any branch of
the method is taken. -/
def getGuildIDStatic (_guild : String) : Except JSError String :=
  .error (.referenceError "Guild is not defined")

/-- SQLiteProvider.get (sqlite.js lines 101-104): resolves the scope id via
this.getGuildID, then reads the cached settings object, returning the default
when the scope has no settings or the key is absent or explicitly
undefined. -/
def SQLiteProvider.get (p : SQLiteProviderSt) (guild key : String) (defVal : JSVal) :
    Except JSError JSVal :=
  match thisGetGuildID guild with
  | .error e => .error e
  | .ok gid =>
    match collGet p.settings gid with
    | none => .ok defVal
    | some st =>
      match collGet st key with
      | none => .ok defVal
      | some v => if v == .undefined then .ok defVal else .ok v

/-- SQLiteProvider.set (sqlite.js lines 113-125): resolves the scope id via
this.getGuildID, creates the cached settings object if absent, stores the
value, and rewrites the single persisted row for the scope (INSERT OR REPLACE
keyed by the guild primary key, 0 for global). Shard broadcast carries no
local state and is not modelled. -/
def SQLiteProvider.set (p : SQLiteProviderSt) (guild key : String) (val : JSVal) :
    SQLiteProviderSt × Except JSError JSVal :=
  match thisGetGuildID guild with
  | .error e => (p, .error e)
  | .ok gid =>
    let st := (collGet p.settings gid).getD []
    let st2 := collSet st key val
    ({ settings := collSet p.settings gid st2,
       rows := collSet p.rows (if gid != "global" then gid else "0") (jsonStringify st2) },
     .ok val)

/-- SQLiteProvider.remove (sqlite.js lines 133-143): resolves the scope id via
this.getGuildID, returns undefined when nothing is stored, otherwise writes
the explicit undefined into the cached object, rewrites the persisted row and
returns the previous value. -/
def SQLiteProvider.remove (p : SQLiteProviderSt) (guild key : String) :
    SQLiteProviderSt × Except JSError JSVal :=
  match thisGetGuildID guild with
  | .error e => (p, .error e)
  | .ok gid =>
    match collGet p.settings gid with
    | none => (p, .ok .undefined)
    | some st =>
      match collGet st key with
      | none => (p, .ok .undefined)
      | some v =>
        if v == .undefined then (p, .ok .undefined)
        else
          let st2 := collSet st key .undefined
          ({ settings := collSet p.settings gid st2,
             rows := collSet p.rows (if gid != "global" then gid else "0") (jsonStringify st2) },
           .ok v)

/-- FrameClient state relevant to the embedded code: the default command
prefix option, the owners option (defaulted to a JavaScript Array in the
constructor and documented as Array of String), the bot user id, the set of
user ids the discord.js users cache can resolve, the guild ids the guilds
cache can resolve, the registry and the optional settings provider (null
until setProvider is called). -/
structure FrameClientSt where
  optPfx : String := "!"
  owners : List String := []
  userId : String := "BOT"
  usersCache : List String := []
  guildsCache : List String := []
  registry : FrameRegistry := {}
  provider : Option SQLiteProviderSt := none

/-- discord.js client.users.resolve on a user id string: the cached user (its
id) or null. -/
def usersResolve (c : FrameClientSt) (user : String) : Option String :=
  if c.usersCache.contains user then some user else none

/-- A method call on a JavaScript Array of strings, dispatched by property
name: Array.prototype provides includes and some but no has, so calling a
missing method throws a TypeError naming it. -/
def jsArrayCall (arr : List String) (method : String) (arg : String) :
    Except JSError Bool :=
  if method == "includes" then .ok (arr.contains arg)
  else if method == "some" then .ok (arr.contains arg)
  else .error (.typeError ("owners." ++ method ++ " is not a function"))

/-- FrameClient.isOwner (src/src/client.js lines 109-111):
this.options.owners.has(this.users.resolve(user).id). The callee is the has
property of the owners Array, which does not exist; JavaScript evaluates the
argument first, so an unresolvable user throws reading id of null, and
otherwise the call of undefined throws. The method name string is taken
verbatim from the source. -/
def isOwner (c : FrameClientSt) (user : String) : Except JSError Bool :=
  match usersResolve c user with
  | none => .error (.typeError "Cannot read properties of null (reading id)")
  | some uid => jsArrayCall c.owners "has" uid

/-- An inbound message (or interaction) as the dispatcher consumes it:
author.bot flag, author.id, content, guild (none models null, for direct
messages), the set of user ids in message.mentions, channel.type, the
channel permission resolution (permissionsFor(author).missing applied to a
required-permission list), and the interaction-only commandName property
(undefined on plain messages). -/
structure Message where
  authorBot : Bool := false
  authorId : String := "U"
  content : String := ""
  guild : Option String := none
  mentions : List String := []
  channelType : String := "text"
  permsMissing : List String → List String := fun l => l
  commandName : Option String := none

/-- Modelled from the spec: the permissions display-name map lives in
src/src/util.js, which is not among the provided sources; the spec only says
it maps each flag of a fixed permission vocabulary to a display name. No
claim depends on the display text, so the renaming is left as the
identity. -/
def permissionsMap (perm : String) : String := perm

/-- Reading _globalEnabled from command.group: whether group still holds the
group id string (registration never completes, see registerCommand) or a
FrameGroup object, neither carries a _globalEnabled property anywhere in the
repository, so the access yields undefined. -/
def readGroupGlobalEnabled (_cmd : FrameCommand) : JSVal := .undefined

/-- FrameCommand.hasPermission (command.js lines 243-265). Returns true, or
the user-facing rejection string, as a JSVal; owner checks go through
FrameClient.isOwner and may throw. Short-circuit order follows the source:
the first line returns true when the command is neither ownerOnly nor
declares userPermissions, before any owner or channel lookup. -/
def hasPermission (client : FrameClientSt) (cmd : FrameCommand) (message : Message)
    (ownerOverride : Bool := true) : Except JSError JSVal :=
  if !cmd.ownerOnly && !cmd.userPermissions.isSome then .ok (.bool true)
  else
    match (if ownerOverride then isOwner client message.authorId else .ok false) with
    | .error e => .error e
    | .ok own1 =>
      if ownerOverride && own1 then .ok (.bool true)
      else
        match (if cmd.ownerOnly then
                 (if ownerOverride then Except.ok true
                  else
                    match isOwner client message.authorId with
                    | .error e => .error e
                    | .ok o => .ok (!o))
               else .ok false) with
        | .error e => .error e
        | .ok cond2 =>
          if cmd.ownerOnly && cond2 then
            .ok (.str ("The " ++ cmd.name ++ " command can only be used by the bot owner."))
          else
            if message.channelType == "text" && cmd.userPermissions.isSome then
              let missing := message.permsMissing (cmd.userPermissions.getD [])
              if missing.length > 0 then
                if missing.length == 1 then
                  .ok (.str ("The " ++ cmd.name ++ " command requires you to have the " ++ permissionsMap (missing.headD "") ++ " permission."))
                else
                  .ok (.str ("The " ++ cmd.name ++ " command requires you to have the following permissions: " ++ String.intercalate ", " (missing.map permissionsMap)))
              else .ok (.bool true)
            else .ok (.bool true)

/-- FrameCommand.isEnabledIn (command.js lines 384-389). A guarded command is
enabled everywhere. With a null guild the source returns
(bypassGroup || this.group._globalEnabled) && this._globalEnabled with
JavaScript value semantics (group._globalEnabled is undefined, see
readGroupGlobalEnabled). With a guild, discord.js Guild objects carry no
isGroupEnabled or isCommandEnabled method (never defined in this
repository), so the call throws; an unresolvable guild throws reading the
method of null. -/
def isEnabledIn (client : FrameClientSt) (cmd : FrameCommand) (guild : Option String)
    (bypassGroup : JSVal := .undefined) : Except JSError JSVal :=
  if cmd.guarded then .ok (.bool true)
  else
    match guild with
    | none => .ok (jsAnd (jsOr bypassGroup (readGroupGlobalEnabled cmd)) (.bool cmd.globalEnabled))
    | some gid =>
      if client.guildsCache.contains gid then
        if jsTruthy bypassGroup then .error (.typeError "guild.isCommandEnabled is not a function")
        else .error (.typeError "guild.isGroupEnabled is not a function")
      else .error (.typeError "Cannot read properties of null (reading isGroupEnabled)")

/-- The guild argument of setEnabledIn: undefined, null (global scope), or a
guild reference. -/
inductive GuildParam where
  | undefined
  | null
  | ref (id : String)
deriving DecidableEq, Repr

/-- FrameCommand.setEnabledIn (command.js lines 365-376): TypeError when the
guild or enabled argument is undefined, Error when the command is guarded,
otherwise either flips the private _globalEnabled flag (null guild) or
resolves the guild and calls guild.setCommandEnabled, a method discord.js
Guild objects do not have (never defined in this repository), which throws.
The pair returned is the command state after the call and the thrown error,
if any. -/
def setEnabledIn (client : FrameClientSt) (cmd : FrameCommand) (guild : GuildParam)
    (enabled : Option Bool) : FrameCommand × Option JSError :=
  match guild, enabled with
  | .undefined, _ => (cmd, some (.typeError "Guild must not be undefined."))
  | _, none => (cmd, some (.typeError "Enabled must not be undefined."))
  | .null, some en =>
    if cmd.guarded then (cmd, some (.error "The command is guarded."))
    else ({ cmd with globalEnabled := en }, none)
  | .ref gid, some _en =>
    if cmd.guarded then (cmd, some (.error "The command is guarded."))
    else if client.guildsCache.contains gid then
      (cmd, some (.typeError "guild.setCommandEnabled is not a function"))
    else (cmd, some (.typeError "Cannot read properties of null (reading setCommandEnabled)"))

/-- FrameCommand.isUsable (command.js lines 396-401): null message reports the
global flag; a guildOnly command with a guildless message is unusable; the
source then computes hasPermission and returns
isEnabledIn(message.guild) && hasPermission && typeof hasPermission !== string
with JavaScript value semantics. -/
def isUsable (client : FrameClientSt) (cmd : FrameCommand) (message : Option Message) :
    Except JSError JSVal :=
  match message with
  | none => .ok (.bool cmd.globalEnabled)
  | some msg =>
    if cmd.guildOnly && msg.guild.isNone then .ok (.bool false)
    else
      match hasPermission client cmd msg with
      | .error e => .error e
      | .ok hp =>
        match isEnabledIn client cmd msg.guild with
        | .error e => .error e
        | .ok en =>
          .ok (jsAnd (jsAnd en hp) (.bool (match hp with | .str _ => false | _ => true)))

/-- A per-user throttle record (command.js lines 347-353): window start
timestamp, usage count, and the time at which the scheduled setTimeout
callback would delete the record (start plus duration seconds in
milliseconds). -/
structure ThrottleObj where
  start : Nat
  usages : Nat
  timeoutAt : Nat
deriving DecidableEq, Repr

/-- FrameCommand.throttle (command.js lines 342-358) with the _throttles map
passed and returned explicitly and Date.now() supplied as now. Returns null
when the command declares no throttling; otherwise consults
client.isOwner(userID), which may throw; for a non-owner it returns the
existing record for the user or creates one scheduled to expire duration
seconds later. -/
def FrameCommand.throttle (client : FrameClientSt) (cmd : FrameCommand)
    (throttles : List (String × ThrottleObj)) (userID : String) (now : Nat) :
    List (String × ThrottleObj) × Except JSError (Option ThrottleObj) :=
  match cmd.throttling with
  | none => (throttles, .ok none)
  | some th =>
    match isOwner client userID with
    | .error e => (throttles, .error e)
    | .ok true => (throttles, .ok none)
    | .ok false =>
      match collGet throttles userID with
      | some t => (throttles, .ok (some t))
      | none =>
        let t : ThrottleObj := { start := now, usages := 0, timeoutAt := now + th.duration * 1000 }
        (collSet throttles userID t, .ok (some t))

/-- What a handler invocation by the dispatcher looks like: run with the raw
argument tokens, or runSlash. -/
inductive HandlerCall where
  | run (name : String) (args : List String)
  | runSlash (name : String)
deriving DecidableEq, Repr

/-- The value a dispatcher entry point returns when it does not throw:
false (explicitly ignored), a handler invocation, or undefined (the function
body fell through). -/
inductive HandleRes where
  | returnedFalse
  | handled (call : HandlerCall)
  | returnedUndefined
deriving DecidableEq, Repr

instance {ε α : Type} [DecidableEq ε] [DecidableEq α] : DecidableEq (Except ε α) := fun a b =>
  match a, b with
  | .error e, .error f =>
    if h : e = f then isTrue (h ▸ rfl) else isFalse (fun hh => h (Except.error.inj hh))
  | .ok x, .ok y =>
    if h : x = y then isTrue (h ▸ rfl) else isFalse (fun hh => h (Except.ok.inj hh))
  | .error _, .ok _ => isFalse (fun hh => Except.noConfusion hh)
  | .ok _, .error _ => isFalse (fun hh => Except.noConfusion hh)

/-- The observable effect of a dispatch: its result or thrown error, plus
every reply the dispatcher sent. The dispatcher source contains no reply or
onBlock call on any path, so the embedding constructs an empty reply list in
every branch. -/
structure DispatchEffect where
  result : Except JSError HandleRes
  replies : List String
deriving DecidableEq, Repr

/-- A boolean-returning method call on a string receiver, dispatched by
property name: String.prototype provides startsWith and endsWith, and the
dispatcher invokes the misspelt startswith (dispatcher.js line 24), which is
not a property of String.prototype, so the call throws a TypeError. -/
def jsStringCallBool (recv : String) (method : String) (arg : String) :
    Except JSError Bool :=
  if method == "startsWith" then .ok (recv.startsWith arg)
  else if method == "endsWith" then .ok (recv.endsWith arg)
  else .error (.typeError ("message.content." ++ method ++ " is not a function"))

/-- Reading a property of a Message and calling .has(uid) on it: the mentions
property exists; any other property name, such as the misspelt metnions at
dispatcher.js line 27, yields undefined and the .has call throws. -/
def messagePropHas (m : Message) (propName : String) (uid : String) :
    Except JSError Bool :=
  if propName == "mentions" then .ok (m.mentions.contains uid)
  else .error (.typeError ("Cannot read properties of undefined (reading has): message." ++ propName))

/-- A .some(id => authorId === id) call on a value expected to be an array
(the user-blacklist setting). Non-array values other than a list throw. -/
def jsValSomeEq (v : JSVal) (x : String) : Except JSError Bool :=
  match v with
  | .list l => .ok (l.contains x)
  | _ => .error (.typeError "blacklist.some is not a function")

/-- The string value of the resolved prefix setting (reachable only when the
provider lookup succeeded and produced a string). -/
def jsValToStr : JSVal → String
  | .str s => s
  | _ => ""

/-- FrameDispatcher.handleCommand (dispatcher.js lines 48-67). Mode 1 splits
the content on spaces, strips the prefix from the first token, and looks the
lowercased token up in registry.commands; mode 2 takes the second token
(undefined when absent, making toLowerCase throw); mode 3 looks up
message.commandName and then evaluates the bare identifier interaction,
which is not bound in handleCommand, so it throws a ReferenceError before
runSlash is ever invoked. In modes 1 and 2 a failed lookup leaves command
undefined and command.run throws; a successful lookup invokes run directly,
with no guard, block message, or argument collection of any kind. -/
def handleCommand (client : FrameClientSt) (message : Message) (starttype : Nat)
    (pfx : Option String) : DispatchEffect :=
  if starttype == 1 then
    match pfx with
    | none => ⟨.error (.typeError "Cannot read properties of null (reading length)"), []⟩
    | some p =>
      let args := jsSplit message.content ' '
      let commandName := jsSliceFrom (args.headD "") p.length
      match collGet client.registry.commands (jsToLower commandName) with
      | none => ⟨.error (.typeError "Cannot read properties of undefined (reading run)"), []⟩
      | some command => ⟨.ok (.handled (.run command.name (args.drop 1))), []⟩
  else if starttype == 2 then
    let args := jsSplit message.content ' '
    match args.get? 1 with
    | none => ⟨.error (.typeError "Cannot read properties of undefined (reading toLowerCase)"), []⟩
    | some commandName =>
      match collGet client.registry.commands (jsToLower commandName) with
      | none => ⟨.error (.typeError "Cannot read properties of undefined (reading run)"), []⟩
      | some command => ⟨.ok (.handled (.run command.name (args.drop 2))), []⟩
  else if starttype == 3 then
    match message.commandName with
    | none => ⟨.error (.typeError "Cannot read properties of undefined (reading toLowerCase)"), []⟩
    | some cn =>
      match collGet client.registry.commands (jsToLower cn) with
      | none => ⟨.error (.typeError "Cannot read properties of undefined (reading runSlash)"), []⟩
      | some _command => ⟨.error (.referenceError "interaction is not defined"), []⟩
  else ⟨.ok .returnedUndefined, []⟩

/-- FrameDispatcher.handleMessage (dispatcher.js lines 20-30), statement by
statement: the bot-author check; the global user-blacklist lookup through
this.client.provider (reading .get of null when no provider is set, and
throwing inside SQLiteProvider.get otherwise); the per-guild prefix lookup,
whose first argument evaluates message.guild.id; the misspelt
content.startswith call; and the misspelt message.metnions mention check.
Falling through both branches returns undefined. -/
def handleMessage (client : FrameClientSt) (message : Message) : DispatchEffect :=
  if message.authorBot then ⟨.ok .returnedFalse, []⟩
  else
    match client.provider with
    | none => ⟨.error (.typeError "Cannot read properties of null (reading get)"), []⟩
    | some prov =>
      match SQLiteProvider.get prov "global" "user-blacklist" (.list []) with
      | .error e => ⟨.error e, []⟩
      | .ok bl =>
        match jsValSomeEq bl message.authorId with
        | .error e => ⟨.error e, []⟩
        | .ok true => ⟨.ok .returnedFalse, []⟩
        | .ok false =>
          match message.guild with
          | none => ⟨.error (.typeError "Cannot read properties of null (reading id)"), []⟩
          | some gid =>
            match SQLiteProvider.get prov gid "prefix" (.str client.optPfx) with
            | .error e => ⟨.error e, []⟩
            | .ok pv =>
              let p := jsValToStr pv
              match jsStringCallBool message.content "startswith" p with
              | .error e => ⟨.error e, []⟩
              | .ok true => handleCommand client message 1 (some p)
              | .ok false =>
                match messagePropHas message "metnions" client.userId with
                | .error e => ⟨.error e, []⟩
                | .ok true => handleCommand client message 2 none
                | .ok false => ⟨.ok .returnedUndefined, []⟩

/-! Concrete fixtures used by witnesses and counterexamples. -/

/-- A plain ping command in group util with every policy defaulted. -/
def pingCmd : FrameCommand := { name := "ping", groupId := "util", memberName := "ping" }

/-- The ping command restricted to guild channels. -/
def pingGuildOnlyCmd : FrameCommand := { pingCmd with guildOnly := true }

/-- A client whose registry maps ping to the guildOnly ping command. -/
def client1 : FrameClientSt :=
  { registry := { commands := [("ping", pingGuildOnlyCmd)] } }

/-- A guildless (direct) message reading bang ping. -/
def msg1 : Message := { content := "!ping", guild := none, authorId := "U1" }

/-- A client with ping registered and no provider set (the constructor
default). -/
def client2 : FrameClientSt :=
  { registry := { commands := [("ping", pingCmd)] } }

/-- The same client after setProvider with a fresh SQLite provider. -/
def client2p : FrameClientSt := { client2 with provider := some {} }

/-- A guild message reading bang ping from a non-bot, non-blacklisted user. -/
def msgBangPing : Message := { content := "!ping", guild := some "G1", authorId := "U1" }

/-- A guild message that mentions the bot and names ping. -/
def msgMentionPing : Message :=
  { content := "<@BOT> ping", guild := some "G1", authorId := "U1", mentions := ["BOT"] }

/-- A guild message reading just ping, with no command marker. -/
def msgPlainPing : Message := { content := "ping", guild := some "G1", authorId := "U1" }

/-- The unknown-flagged fallback command. -/
def unknownCmd : FrameCommand :=
  { name := "unknown-command", groupId := "util", memberName := "unknown-command", unknown := true }

/-- A client whose registry holds the fallback command and records it in
unknownCommand. -/
def client3 : FrameClientSt :=
  { registry := { commands := [("unknown-command", unknownCmd)], unknownCommand := some unknownCmd } }

/-- A client with an empty registry and no unknown command. -/
def client3e : FrameClientSt := { registry := {} }

/-- A guild message naming a command that is not registered. -/
def msgUnknown : Message := { content := "!doesnotexist", guild := some "G1", authorId := "U1" }

/-- The registry state after registerGroup util Utility on a fresh registry. -/
def regUtil : FrameRegistry := (registerGroup {} "util" "Utility").1

/-- A client with the default empty owners Array and user 123 in the users
cache. -/
def client7 : FrameClientSt := { owners := [], usersCache := ["123"] }

/-- The ping command with a throttling policy of 2 usages per 10 seconds. -/
def pingThrottledCmd : FrameCommand :=
  { pingCmd with throttling := some { usages := 2, duration := 10 } }

/-- A freshly initialised provider with empty cache and no rows. -/
def prov0 : SQLiteProviderSt := {}

/-- A guarded ping command. -/
def guardedCmd : FrameCommand := { pingCmd with guarded := true }

/-- Folds a sequence of setEnabledIn calls over a command, keeping the command
state each call returns (thrown errors leave the state as returned). -/
def applySetEnabledCalls (client : FrameClientSt) (cmd : FrameCommand)
    (calls : List (GuildParam × Option Bool)) : FrameCommand :=
  calls.foldl (fun c call => (setEnabledIn client c call.1 call.2).1) cmd

/-- On a guarded command every setEnabledIn call throws before any mutation,
so the command state is returned unchanged. -/
theorem setEnabledIn_guarded_fst (client : FrameClientSt) (cmd : FrameCommand)
    (g : GuildParam) (e : Option Bool) (h : cmd.guarded = true) :
    (setEnabledIn client cmd g e).1 = cmd := by
  cases g <;> cases e <;> simp [setEnabledIn, h]

/-- A guarded command survives any sequence of setEnabledIn calls
unchanged. -/
theorem applySetEnabledCalls_guarded (client : FrameClientSt) (cmd : FrameCommand)
    (calls : List (GuildParam × Option Bool)) (h : cmd.guarded = true) :
    applySetEnabledCalls client cmd calls = cmd := by
  induction calls with
  | nil => rfl
  | cons head tail ih =>
    show List.foldl _ ((setEnabledIn client cmd head.1 head.2).1) tail = cmd
    rw [setEnabledIn_guarded_fst client cmd head.1 head.2 h]
    exact ih

/-! Claim theorems. -/

/-- Claim C1 (counterexample): the dispatcher invokes a resolved command
directly even when the guard chain blocks it. With the guildOnly ping command
registered and a guildless message, isUsable is false, yet handleCommand
invokes run and sends no block message. -/
theorem c1_guard_chain_not_run_counterexample :
    isUsable client1 pingGuildOnlyCmd (some msg1) = .ok (.bool false) ∧
    handleCommand client1 msg1 1 (some "!") =
      ⟨.ok (.handled (.run "ping" [])), []⟩ :=
  ⟨by decide, by decide⟩

/-- Claim C1 (amended): the dispatcher performs no guard checks at all, in
any mode. Whenever the lookup token resolves to a registered command, for
every command state (including blocked ones): in prefix mode (starttype 1,
token is the lowercased first word with the prefix stripped) and in mention
mode (starttype 2, token is the lowercased second word) handleCommand invokes
the run handler directly; in interaction mode (starttype 3, token is the
lowercased commandName) it throws a ReferenceError on the unbound identifier
interaction before runSlash is invoked. No block message is ever sent (the
reply list is empty on every path). -/
theorem c1_dispatcher_invokes_handler_unguarded (client : FrameClientSt)
    (message : Message) (p : String) (cmd : FrameCommand) :
    (collGet client.registry.commands
        (jsToLower (jsSliceFrom ((jsSplit message.content ' ').headD "") p.length)) = some cmd →
      handleCommand client message 1 (some p) =
        ⟨.ok (.handled (.run cmd.name ((jsSplit message.content ' ').drop 1))), []⟩) ∧
    (∀ tok, (jsSplit message.content ' ').get? 1 = some tok →
      collGet client.registry.commands (jsToLower tok) = some cmd →
      handleCommand client message 2 none =
        ⟨.ok (.handled (.run cmd.name ((jsSplit message.content ' ').drop 2))), []⟩) ∧
    (∀ cn, message.commandName = some cn →
      collGet client.registry.commands (jsToLower cn) = some cmd →
      handleCommand client message 3 none =
        ⟨.error (.referenceError "interaction is not defined"), []⟩) := by
  refine ⟨?_, ?_, ?_⟩
  · intro h
    have hstep : handleCommand client message 1 (some p) =
        match collGet client.registry.commands
            (jsToLower (jsSliceFrom ((jsSplit message.content ' ').headD "") p.length)) with
        | none =>
          ⟨.error (.typeError "Cannot read properties of undefined (reading run)"), []⟩
        | some command =>
          ⟨.ok (.handled (.run command.name ((jsSplit message.content ' ').drop 1))), []⟩ := rfl
    rw [hstep, h]
  · intro tok htok h
    have hstep : handleCommand client message 2 none =
        match (jsSplit message.content ' ').get? 1 with
        | none =>
          ⟨.error (.typeError "Cannot read properties of undefined (reading toLowerCase)"), []⟩
        | some commandName =>
          match collGet client.registry.commands (jsToLower commandName) with
          | none =>
            ⟨.error (.typeError "Cannot read properties of undefined (reading run)"), []⟩
          | some command =>
            ⟨.ok (.handled (.run command.name ((jsSplit message.content ' ').drop 2))), []⟩ := rfl
    rw [hstep, htok]
    simp only [h]
  · intro cn hcn h
    have hstep : handleCommand client message 3 none =
        match message.commandName with
        | none =>
          ⟨.error (.typeError "Cannot read properties of undefined (reading toLowerCase)"), []⟩
        | some c =>
          match collGet client.registry.commands (jsToLower c) with
          | none =>
            ⟨.error (.typeError "Cannot read properties of undefined (reading runSlash)"), []⟩
          | some _command =>
            ⟨.error (.referenceError "interaction is not defined"), []⟩ := rfl
    rw [hstep, hcn]
    simp only [h]

/-- A message that mentions the bot and names ping as its second token. -/
def msgMention1 : Message :=
  { content := "<@BOT> ping", guild := none, authorId := "U1", mentions := ["BOT"] }

/-- An interaction whose commandName is ping. -/
def msgSlash1 : Message := { commandName := some "ping" }

/-- Claim C1 witness: the amended theorem applied to the guildOnly ping
command in all three modes: prefix and mention invoke run directly,
interaction mode throws the ReferenceError. -/
theorem c1_dispatcher_invokes_handler_unguarded_witness :
    handleCommand client1 msg1 1 (some "!") =
      ⟨.ok (.handled (.run pingGuildOnlyCmd.name ((jsSplit msg1.content ' ').drop 1))), []⟩ ∧
    handleCommand client1 msgMention1 2 none =
      ⟨.ok (.handled (.run pingGuildOnlyCmd.name ((jsSplit msgMention1.content ' ').drop 2))), []⟩ ∧
    handleCommand client1 msgSlash1 3 none =
      ⟨.error (.referenceError "interaction is not defined"), []⟩ :=
  ⟨(c1_dispatcher_invokes_handler_unguarded client1 msg1 "!" pingGuildOnlyCmd).1 (by decide),
   (c1_dispatcher_invokes_handler_unguarded client1 msgMention1 "!" pingGuildOnlyCmd).2.1
     "ping" (by decide) (by decide),
   (c1_dispatcher_invokes_handler_unguarded client1 msgSlash1 "!" pingGuildOnlyCmd).2.2
     "ping" (by decide) (by decide)⟩

/-- Claim C2: handleMessage never performs the claimed classification: with
no provider it throws reading .get of null; with the SQLite provider the
blacklist lookup throws inside SQLiteProvider.get; and the two calls the
classification would rely on, content.startswith and message.metnions.has,
are misspelt member accesses that themselves throw. The commands ping is
never resolved or run on any of the three message shapes. -/
theorem c2_handleMessage_always_throws :
    handleMessage client2 msgBangPing =
      ⟨.error (.typeError "Cannot read properties of null (reading get)"), []⟩ ∧
    handleMessage client2p msgBangPing =
      ⟨.error (.typeError "this.getGuildID is not a function"), []⟩ ∧
    handleMessage client2p msgMentionPing =
      ⟨.error (.typeError "this.getGuildID is not a function"), []⟩ ∧
    handleMessage client2p msgPlainPing =
      ⟨.error (.typeError "this.getGuildID is not a function"), []⟩ ∧
    jsStringCallBool "!ping" "startswith" "!" =
      .error (.typeError "message.content.startswith is not a function") ∧
    messagePropHas msgMentionPing "metnions" "BOT" =
      .error (.typeError "Cannot read properties of undefined (reading has): message.metnions") :=
  ⟨by decide, by decide, by decide, by decide, by decide, by decide⟩

/-- Claim C3: on a prefixed message whose token matches no registered
command, handleCommand neither invokes the registered unknown-flagged
fallback nor ignores the event: the failed lookup leaves command undefined
and command.run throws a TypeError, with or without a fallback registered. -/
theorem c3_unknown_command_lookup_throws :
    client3.registry.unknownCommand = some unknownCmd ∧
    handleCommand client3 msgUnknown 1 (some "!") =
      ⟨.error (.typeError "Cannot read properties of undefined (reading run)"), []⟩ ∧
    client3e.registry.unknownCommand = none ∧
    handleCommand client3e msgUnknown 1 (some "!") =
      ⟨.error (.typeError "Cannot read properties of undefined (reading run)"), []⟩ :=
  ⟨by decide, by decide, by decide, by decide⟩

/-- Claim C4: registering a command whose name or any alias collides with the
name or an alias of an already-registered command throws an Error and leaves
the whole registry state (commands, groups, unknownCommand) unchanged,
because both conflict checks precede every mutation. -/
theorem c4_duplicate_registration_rejected (r : FrameRegistry) (c : FrameCommand)
    (h : ∃ p ∈ r.commands,
        c.name = p.2.name ∨ c.name ∈ p.2.aliases ∨
        ∃ a ∈ c.aliases, (a = p.2.name ∨ a ∈ p.2.aliases)) :
    (registerCommand r c).1 = r ∧
    ∃ m, (registerCommand r c).2 = some (JSError.error m) := by
  by_cases h1 : (r.commands.any fun p => p.2.name == c.name || p.2.aliases.contains c.name) = true
  · unfold registerCommand
    rw [if_pos h1]
    exact ⟨rfl, ⟨_, rfl⟩⟩
  · obtain ⟨p, hp, hcase⟩ := h
    have hname : ¬(c.name = p.2.name ∨ c.name ∈ p.2.aliases) := by
      intro hc
      apply h1
      refine List.any_eq_true.mpr ⟨p, hp, ?_⟩
      rcases hc with hc | hc
      · simp [hc]
      · simp [List.contains, List.elem_iff, hc]
    rcases hcase with hc | hc | ⟨a, ha, hconf⟩
    · exact absurd (Or.inl hc) hname
    · exact absurd (Or.inr hc) hname
    · have hfind : (c.aliases.find?
          (fun ali => r.commands.any fun q => q.2.name == ali || q.2.aliases.contains ali)).isSome := by
        rw [List.find?_isSome]
        refine ⟨a, ha, List.any_eq_true.mpr ⟨p, hp, ?_⟩⟩
        rcases hconf with h2 | h2
        · simp [h2]
        · simp [List.contains, List.elem_iff, h2]
      obtain ⟨al, hal⟩ := Option.isSome_iff_exists.mp hfind
      unfold registerCommand
      rw [if_neg h1, hal]
      exact ⟨rfl, ⟨_, rfl⟩⟩

/-- Claim C4 witness: re-registering ping into a registry already holding
ping is rejected with the registry unchanged. -/
theorem c4_duplicate_registration_rejected_witness :
    (registerCommand { commands := [("ping", pingCmd)] } pingCmd).1 =
      ({ commands := [("ping", pingCmd)] } : FrameRegistry) ∧
    ∃ m, (registerCommand { commands := [("ping", pingCmd)] } pingCmd).2 =
      some (JSError.error m) :=
  c4_duplicate_registration_rejected { commands := [("ping", pingCmd)] } pingCmd (by decide)

/-- Claim C5: a command that passes the name, alias and group checks is never
inserted anywhere: the memberName uniqueness check reads group.commands, which
the FrameGroup constructor never initialises, so registerCommand throws a
TypeError with the registry unchanged. The second conjunct exhibits the group
state produced by registerGroup: its commands property is undefined. -/
theorem c5_registration_crashes_on_group_commands :
    registerCommand regUtil pingCmd =
      (regUtil, some (.typeError "Cannot read properties of undefined (reading some)")) ∧
    regUtil.groups = [("util", { id := "util", name := "Utility", commands := none })] :=
  ⟨by decide, by decide⟩

/-- Claim C6: a guarded command stays enabled in every guild and in the
global scope after any sequence of setEnabledIn calls with any arguments. -/
theorem c6_guarded_always_enabled (client : FrameClientSt) (cmd : FrameCommand)
    (calls : List (GuildParam × Option Bool)) (guild : Option String) (bypass : JSVal)
    (h : cmd.guarded = true) :
    isEnabledIn client (applySetEnabledCalls client cmd calls) guild bypass =
      .ok (.bool true) := by
  rw [applySetEnabledCalls_guarded client cmd calls h]
  simp [isEnabledIn, h]

/-- Claim C6 witness: the guarded ping command after a global disable and a
guild disable attempt is still enabled globally. -/
theorem c6_guarded_always_enabled_witness :
    isEnabledIn client1
      (applySetEnabledCalls client1 guardedCmd
        [(GuildParam.null, some false), (GuildParam.ref "G1", some false)])
      none .undefined = .ok (.bool true) :=
  c6_guarded_always_enabled client1 guardedCmd
    [(GuildParam.null, some false), (GuildParam.ref "G1", some false)] none .undefined rfl

/-- Claim C7: against the embedded code, throttle returns null when the
command has no throttling policy, but with a policy it never returns the
per-user record: the isOwner consultation throws a TypeError, because
options.owners is an Array (its documented and defaulted type) with no has
method when the user resolves, and reading .id of null when it does not. -/
theorem c7_throttle_evaluation :
    FrameCommand.throttle client7 pingCmd [] "123" 0 = ([], .ok none) ∧
    FrameCommand.throttle client7 pingThrottledCmd [] "123" 0 =
      ([], .error (.typeError "owners.has is not a function")) ∧
    FrameCommand.throttle client7 pingThrottledCmd [] "999" 0 =
      ([], .error (.typeError "Cannot read properties of null (reading id)")) :=
  ⟨by decide, by decide, by decide⟩

/-- Claim C8: every provider operation throws before touching the cache or a
row: get, set and remove all begin with this.getGuildID, an instance lookup
of a static method, so the claimed set-set and remove-get behaviour is
unreachable; set and remove return with the state unchanged. -/
theorem c8_provider_operations_throw :
    SQLiteProvider.set prov0 "global" "prefix" (.str "?") =
      (prov0, .error (.typeError "this.getGuildID is not a function")) ∧
    SQLiteProvider.get prov0 "global" "prefix" (.str "!") =
      .error (.typeError "this.getGuildID is not a function") ∧
    SQLiteProvider.remove prov0 "global" "prefix" =
      (prov0, .error (.typeError "this.getGuildID is not a function")) :=
  ⟨by decide, by decide, by decide⟩

/-- Claim C9: setEnabledIn throws a TypeError when its guild argument or its
enabled argument is undefined, throws on every call to a guarded command (an
Error when both arguments are defined), and whenever it throws the command
state is returned unchanged. -/
theorem c9_setEnabledIn_validation (client : FrameClientSt) (cmd : FrameCommand)
    (guild : GuildParam) (enabled : Option Bool) :
    (guild = .undefined →
      setEnabledIn client cmd guild enabled =
        (cmd, some (.typeError "Guild must not be undefined."))) ∧
    (guild ≠ .undefined → enabled = none →
      setEnabledIn client cmd guild enabled =
        (cmd, some (.typeError "Enabled must not be undefined."))) ∧
    (guild ≠ .undefined → enabled ≠ none → cmd.guarded = true →
      setEnabledIn client cmd guild enabled =
        (cmd, some (.error "The command is guarded."))) ∧
    ((setEnabledIn client cmd guild enabled).2.isSome →
      (setEnabledIn client cmd guild enabled).1 = cmd) := by
  cases guild <;> cases enabled <;>
    by_cases hg : cmd.guarded <;>
      simp [setEnabledIn, hg] <;> split <;> simp

/-- Claim C9 witness: the guarded-command conjunct applied to the guarded
ping command with defined arguments. -/
theorem c9_setEnabledIn_validation_witness :
    setEnabledIn client1 guardedCmd .null (some false) =
      (guardedCmd, some (.error "The command is guarded.")) :=
  (c9_setEnabledIn_validation client1 guardedCmd .null (some false)).2.2.1
    (by decide) (by decide) rfl

/-- Claim C10: a command that is neither ownerOnly nor declares
userPermissions grants permission to every message under every client state
and either ownerOverride value: hasPermission returns true on its first line,
before any owner or channel permission resolution is consulted. -/
theorem c10_hasPermission_trivial_true (client : FrameClientSt) (cmd : FrameCommand)
    (message : Message) (ovr : Bool)
    (h1 : cmd.ownerOnly = false) (h2 : cmd.userPermissions = none) :
    hasPermission client cmd message ovr = .ok (.bool true) := by
  simp [hasPermission, h1, h2]

/-- Claim C10 witness: the plain ping command grants permission on the
bang-ping message. -/
theorem c10_hasPermission_trivial_true_witness :
    hasPermission client1 pingCmd msgBangPing true = .ok (.bool true) :=
  c10_hasPermission_trivial_true client1 pingCmd msgBangPing true rfl rfl

end Djsframe
